import Mathlib

/-
Verification of the sodapop demographic-analysis core against its
specification.  The development shallowly embeds the three core modules
(`hierarchy.py`, `processor.py`, `analyzer.py`):

* Python strings are `String` (manipulated through their character lists);
* Python ints are `Int`; Python floats are modelled as exact rationals `ℚ`
  (except `calculate_cagr`, whose fractional power needs `ℝ`);
* Python `int(x)` truncation toward zero is `ratTrunc`;
* fallible code (`int()` on a non-numeric cell) returns `Except`;
* dictionaries are association lists with Python's update semantics
  (existing key overwritten in place, new key appended).

Rational values produced inside the executable pipeline are built with
`Rat.divInt` / `pyMulIntRat` (kernel-reducible); lemmas below identify
them with ordinary `ℚ` division and multiplication.
-/

/-! ## Generic helpers -/

/-- Truncation toward zero of a rational, modelling Python `int(x)`. -/
def ratTrunc (q : ℚ) : Int := q.num.tdiv (q.den : Int)

/-- Kernel-reducible product of an integer with a rational
(used where the Python source multiplies an int by a float). -/
def pyMulIntRat (n : Int) (b : ℚ) : ℚ := Rat.divInt (n * b.num) (b.den : Int)

/-- Kernel-reducible embedding of an integer overlap/total quotient
(used where the Python source divides two ints producing a float). -/
def intDivRat (a b : Int) : ℚ := Rat.divInt a b

/-- Boolean substring test on character lists, modelling Python's
`needle in haystack` for strings. -/
def listInfix (needle : List Char) : List Char → Bool
  | [] => needle.isEmpty
  | c :: rest => needle.isPrefixOf (c :: rest) || listInfix needle rest

/-- Boolean suffix test on character lists. -/
def listSuffix (needle hay : List Char) : Bool :=
  needle.reverse.isPrefixOf hay.reverse

/-- Python `str.strip()`: drop leading and trailing whitespace. -/
def pyStrip (s : String) : String :=
  String.mk (((s.toList.dropWhile Char.isWhitespace).reverse.dropWhile
    Char.isWhitespace).reverse)

/-- Numeric value of a list of decimal digit characters. -/
def digitsToNat (ds : List Char) : Nat :=
  ds.foldl (fun acc c => acc * 10 + (c.toNat - '0'.toNat)) 0

/-- Split a character list into its maximal leading run of decimal digits
and the remainder. -/
def digitsPrefix (cs : List Char) : List Char × List Char :=
  (cs.takeWhile Char.isDigit, cs.dropWhile Char.isDigit)

/-- Python `int(s)` on a decimal string: optional surrounding whitespace,
optional sign, then one or more digits; anything else raises (here: `none`). -/
def pyIntOfString (s : String) : Option Int :=
  let parseDigits : List Char → Option Nat := fun cs =>
    if cs.isEmpty then none
    else if cs.all Char.isDigit then some (digitsToNat cs) else none
  match (pyStrip s).toList with
  | '+' :: rest => (parseDigits rest).map (fun n => (n : Int))
  | '-' :: rest => (parseDigits rest).map (fun n => -(n : Int))
  | cs => (parseDigits cs).map (fun n => (n : Int))

/-- Python slice `s[:n]` on a string. -/
def strTake (s : String) (n : Nat) : String := String.mk (s.toList.take n)

/-- Code-point comparison of character lists, modelling Python `str < str`. -/
def charListLt : List Char → List Char → Bool
  | [], [] => false
  | [], _ :: _ => true
  | _ :: _, [] => false
  | a :: as, b :: bs =>
      a.toNat < b.toNat || (a == b && charListLt as bs)

/-- Did an `Except` computation succeed? -/
def exceptIsOk : Except String α → Bool
  | .ok _ => true
  | .error _ => false

/-! ## Administrative hierarchy (`hierarchy.py`) -/

/-- Administrative hierarchy levels (`AdminLevel`). -/
inductive AdminLevel where
  | NATIONAL
  | SIDO
  | SIGUNGU
  | EMD
deriving DecidableEq

/-- `cs.ljust(width, '0')`: right-pad a character list with zeros. -/
def ljustZeros (cs : List Char) (width : Nat) : List Char :=
  cs ++ List.replicate (width - cs.length) '0'

/-- `str(code).ljust(10, '0')[:10]`: the code normalization applied at the
start of every hierarchy operation. -/
def normalizeTo10 (cs : List Char) : List Char :=
  (ljustZeros cs 10).take 10

/-- String version of `normalizeTo10`. -/
def pyPad10Str (s : String) : String := String.mk (normalizeTo10 s.toList)

/-- An administrative region (`Region` dataclass). -/
structure Region where
  code : String
  name : String
  name_full : String
  level : AdminLevel
  parent_code : Option String := none
  is_active : Bool := true
  expired_date : Option String := none
deriving DecidableEq

/-- The hierarchy manager's state: its `_regions` dictionary as an
association list.  (The sido/sigungu child indices are not consulted by
any verified operation and are omitted.) -/
structure KIKcdHierarchy where
  regions : List (String × Region) := []
deriving DecidableEq

/-- Dictionary lookup in the `_regions` map (`dict.get`). -/
def lookupRegion : List (String × Region) → String → Option Region
  | [], _ => none
  | (k, r) :: rest, code => if k = code then some r else lookupRegion rest code

/-- `KIKcdHierarchy.normalize_code`: truncate-or-pad to 10 characters,
then zero the finer segments for SIDO / SIGUNGU targets; any other target
level returns the 10-character code unchanged (the `else` branch). -/
def normalize_code (code : String) (target_level : AdminLevel) : String :=
  let cs := normalizeTo10 code.toList
  match target_level with
  | .SIDO => String.mk (ljustZeros (cs.take 2) 10)
  | .SIGUNGU => String.mk (ljustZeros (cs.take 5) 10)
  | _ => String.mk cs

/-- Spec-side reading of `normalize_code` ("zero out all segments finer
than `target_level`"), stated for comparison with the source function. -/
def zeroSegmentsFiner (code : String) (target_level : AdminLevel) : String :=
  let cs := normalizeTo10 code.toList
  match target_level with
  | .NATIONAL => String.mk (List.replicate 10 '0')
  | .SIDO => String.mk (cs.take 2 ++ List.replicate 8 '0')
  | .SIGUNGU => String.mk (cs.take 5 ++ List.replicate 5 '0')
  | .EMD => String.mk cs

/-- `KIKcdHierarchy.get_region`: normalize the code, then dictionary lookup. -/
def get_region (h : KIKcdHierarchy) (code : String) : Option Region :=
  lookupRegion h.regions (pyPad10Str code)

/-- `KIKcdHierarchy.is_total_entry`: `re.match` of the five
`TOTAL_PATTERNS` against the name (ends with 계, is exactly 계, contains
소계, contains 합계, starts with 전국). -/
def is_total_entry_hier (name : String) : Bool :=
  let cs := name.toList
  listSuffix ['계'] cs || cs == ['계'] || listInfix ['소', '계'] cs ||
    listInfix ['합', '계'] cs || ['전', '국'].isPrefixOf cs

/-- `KIKcdHierarchy.filter_active_regions`: keep a code unless its region
is unknown, or inactive with a (truthy) expiry date whose leading
4-character year parses and lies more than 5 years before the reference
year. -/
def filter_active_regions (h : KIKcdHierarchy) (codes : List String)
    (reference_year : Int) : List String :=
  match codes with
  | [] => []
  | code :: rest =>
    match get_region h code with
    | none => filter_active_regions h rest reference_year
    | some region =>
      if !region.is_active then
        match region.expired_date with
        | some d =>
          if d.isEmpty then code :: filter_active_regions h rest reference_year
          else
            match pyIntOfString (strTake d 4) with
            | some expYear =>
              if expYear < reference_year - 5 then
                filter_active_regions h rest reference_year
              else code :: filter_active_regions h rest reference_year
            | none => code :: filter_active_regions h rest reference_year
        | none => code :: filter_active_regions h rest reference_year
      else code :: filter_active_regions h rest reference_year

/-- Spec-side keep-predicate for `filter_active_regions`: a code is kept
iff its region is known and NOT (inactive with a parseable expiry year
more than 5 years before the reference year). -/
def keptBySpec (h : KIKcdHierarchy) (reference_year : Int) (code : String) :
    Bool :=
  match get_region h code with
  | none => false
  | some region =>
    if region.is_active then true
    else
      match region.expired_date with
      | none => true
      | some d =>
        if d.isEmpty then true
        else
          match pyIntOfString (strTake d 4) with
          | none => true
          | some expYear => !(expYear < reference_year - 5)

/-- The 17 standard sido codes (`SIDO_CODES`). -/
def SIDO_CODES : List (String × String) :=
  [("11", "서울특별시"), ("26", "부산광역시"), ("27", "대구광역시"),
   ("28", "인천광역시"), ("29", "광주광역시"), ("30", "대전광역시"),
   ("31", "울산광역시"), ("36", "세종특별자치시"), ("41", "경기도"),
   ("42", "강원특별자치도"), ("43", "충청북도"), ("44", "충청남도"),
   ("45", "전북특별자치도"), ("46", "전라남도"), ("47", "경상북도"),
   ("48", "경상남도"), ("50", "제주특별자치도")]

/-- The hierarchy produced by `__init__` / `_initialize_sido`. -/
def initialHierarchy : KIKcdHierarchy :=
  { regions := SIDO_CODES.map (fun p =>
      let full_code := String.mk (ljustZeros p.1.toList 10)
      (full_code,
        { code := full_code, name := p.2, name_full := p.2,
          level := AdminLevel.SIDO, parent_code := none,
          is_active := true, expired_date := none })) }

/-! ## Demographic processor (`processor.py`) -/

/-- The four welfare clusters (`WelfareCluster`), in enum order. -/
inductive WelfareCluster where
  | children_youth
  | productive
  | young_old
  | old_old
deriving DecidableEq

/-- `WelfareCluster.age_range`: (min_age, max_age) per cluster. -/
def WelfareCluster.age_range : WelfareCluster → Int × Int
  | .children_youth => (0, 18)
  | .productive => (19, 64)
  | .young_old => (65, 74)
  | .old_old => (75, 120)

/-- Iteration order of `for cluster in WelfareCluster`. -/
def clusterEnum : List WelfareCluster :=
  [.children_youth, .productive, .young_old, .old_old]

/-- `DemographicProcessor._classify_to_cluster`: clusters overlapping the
given age range together with their proportional weights. -/
def classify_to_cluster (min_age max_age : Int) :
    List (WelfareCluster × ℚ) :=
  clusterEnum.filterMap (fun cluster =>
    let cMin := cluster.age_range.1
    let cMax := cluster.age_range.2
    let overlapMin := max min_age cMin
    let overlapMax := min max_age cMax
    if overlapMin ≤ overlapMax then
      some (cluster, intDivRat (overlapMax - overlapMin + 1)
        (max_age - min_age + 1))
    else none)

/-- `DemographicProcessor.EXCLUDE_PATTERNS`. -/
def EXCLUDE_PATTERNS : List String :=
  ["계", "합계", "소계", "총계", "전체", "Total", "total"]

/-- `DemographicProcessor._is_total_entry`: substring containment of any
exclude pattern in the stripped value.  (The `pd.isna` branch is for
missing cells; values here are always strings, for which it is `False`.) -/
def is_total_entry_proc (value : String) : Bool :=
  let value_str := pyStrip value
  EXCLUDE_PATTERNS.any (fun p => listInfix p.toList value_str.toList)

/-- Age pattern `^(\d+)세$`. -/
def matchSingleAge (cs : List Char) : Option (Int × Int) :=
  let (ds, rest) := digitsPrefix cs
  if ds.isEmpty then none
  else if rest == ['세'] then some ((digitsToNat ds : Int), (digitsToNat ds : Int))
  else none

/-- Age pattern `^(\d+)[~-](\d+)세?$`. -/
def matchRangeAge (cs : List Char) : Option (Int × Int) :=
  let (ds1, rest1) := digitsPrefix cs
  if ds1.isEmpty then none
  else
    match rest1 with
    | c :: rest2 =>
      if c == '~' || c == '-' then
        let (ds2, rest3) := digitsPrefix rest2
        if ds2.isEmpty then none
        else if rest3 == [] || rest3 == ['세'] then
          some ((digitsToNat ds1 : Int), (digitsToNat ds2 : Int))
        else none
      else none
    | [] => none

/-- Age pattern `^(\d+)세[~-](\d+)세$`. -/
def matchRangeAgeSe (cs : List Char) : Option (Int × Int) :=
  let (ds1, rest1) := digitsPrefix cs
  if ds1.isEmpty then none
  else
    match rest1 with
    | '세' :: c :: rest2 =>
      if c == '~' || c == '-' then
        let (ds2, rest3) := digitsPrefix rest2
        if ds2.isEmpty then none
        else if rest3 == ['세'] then
          some ((digitsToNat ds1 : Int), (digitsToNat ds2 : Int))
        else none
      else none
    | _ => none

/-- Age pattern `^(\d+)[~-](\d+)$` (5-year groups). -/
def matchBareRange (cs : List Char) : Option (Int × Int) :=
  let (ds1, rest1) := digitsPrefix cs
  if ds1.isEmpty then none
  else
    match rest1 with
    | c :: rest2 =>
      if c == '~' || c == '-' then
        let (ds2, rest3) := digitsPrefix rest2
        if ds2.isEmpty then none
        else if rest3 == [] then
          some ((digitsToNat ds1 : Int), (digitsToNat ds2 : Int))
        else none
      else none
    | [] => none

/-- Age pattern `^(\d+)세?\s*이상$` (open-ended). -/
def matchOpenEnded (cs : List Char) : Option (Int × Int) :=
  let (ds, rest1) := digitsPrefix cs
  if ds.isEmpty then none
  else
    let rest2 := match rest1 with
      | '세' :: r => r
      | r => r
    let rest3 := rest2.dropWhile Char.isWhitespace
    if rest3 == ['이', '상'] then some ((digitsToNat ds : Int), 120)
    else none

/-- Age pattern `^(\d+)\+$` (open-ended, plus form). -/
def matchPlus (cs : List Char) : Option (Int × Int) :=
  let (ds, rest) := digitsPrefix cs
  if ds.isEmpty then none
  else if rest == ['+'] then some ((digitsToNat ds : Int), 120)
  else none

/-- `DemographicProcessor._parse_age_group`: strip, then try the
`AGE_PATTERNS` in insertion order. -/
def parse_age_group (age_str : String) : Option (Int × Int) :=
  let cs := (pyStrip age_str).toList
  match matchSingleAge cs with
  | some r => some r
  | none =>
    match matchRangeAge cs with
    | some r => some r
    | none =>
      match matchRangeAgeSe cs with
      | some r => some r
      | none =>
        match matchBareRange cs with
        | some r => some r
        | none =>
          match matchOpenEnded cs with
          | some r => some r
          | none => matchPlus cs

/-- Per-cluster integer counters (the `male_by_cluster` /
`female_by_cluster` dictionaries, which always hold exactly the four
cluster keys). -/
structure ClusterCounts where
  children_youth : Int := 0
  productive : Int := 0
  young_old : Int := 0
  old_old : Int := 0
deriving DecidableEq

/-- Read a cluster's counter. -/
def ClusterCounts.get : ClusterCounts → WelfareCluster → Int
  | c, .children_youth => c.children_youth
  | c, .productive => c.productive
  | c, .young_old => c.young_old
  | c, .old_old => c.old_old

/-- `counts[cluster] += v`. -/
def ClusterCounts.add : ClusterCounts → WelfareCluster → Int → ClusterCounts
  | c, .children_youth, v => { c with children_youth := c.children_youth + v }
  | c, .productive, v => { c with productive := c.productive + v }
  | c, .young_old, v => { c with young_old := c.young_old + v }
  | c, .old_old, v => { c with old_old := c.old_old + v }

/-- `DemographicData` (raw stored fields; the derived ratios follow as
definitions). -/
structure DemographicData where
  region_code : String
  region_name : String
  year : Int
  total_population : Int := 0
  male_population : Int := 0
  female_population : Int := 0
  children_youth : Int := 0
  productive : Int := 0
  young_old : Int := 0
  old_old : Int := 0
  male_by_cluster : ClusterCounts := {}
  female_by_cluster : ClusterCounts := {}
  age_distribution : List (String × Int) := []
deriving DecidableEq

/-- `DemographicData.elderly_total`. -/
def DemographicData.elderly_total (d : DemographicData) : Int :=
  d.young_old + d.old_old

/-- `DemographicData.aging_ratio` (0 when the denominator is 0). -/
def DemographicData.aging_ratio (d : DemographicData) : ℚ :=
  if d.total_population = 0 then 0
  else (d.elderly_total : ℚ) / (d.total_population : ℚ) * 100

/-- `DemographicData.old_old_ratio` (0 when the denominator is 0). -/
def DemographicData.old_old_ratio (d : DemographicData) : ℚ :=
  if d.elderly_total = 0 then 0
  else (d.old_old : ℚ) / (d.elderly_total : ℚ) * 100

/-- `DemographicData.dependency_ratio` (0 when the denominator is 0). -/
def DemographicData.dependency_ratio (d : DemographicData) : ℚ :=
  if d.productive = 0 then 0
  else ((d.children_youth + d.elderly_total : Int) : ℚ) /
    (d.productive : ℚ) * 100

/-- A population cell of the input table: a numeric value, a missing
value (`NaN`), or a non-numeric value on which Python `int()` raises. -/
inductive PopCell where
  | val (n : Int)
  | na
  | invalid (s : String)
deriving DecidableEq

/-- `int(row[population_col]) if pd.notna(row[population_col]) else 0`:
missing cells default to 0, non-numeric cells raise `ValueError`. -/
def popValue : PopCell → Except String Int
  | .val n => .ok n
  | .na => .ok 0
  | .invalid s => .error ("invalid literal for int with base 10: " ++ s)

/-- One raw KOSIS row, with the six columns read by
`process_kosis_dataframe`. -/
structure Row where
  region : String
  region_code : String
  year : Int
  age_group : String
  gender : String
  population : PopCell
deriving DecidableEq

/-- The male gender tokens of the classification branch. -/
def MALE_TOKENS : List String := ["남", "male", "Male", "M"]

/-- The female gender tokens of the classification branch. -/
def FEMALE_TOKENS : List String := ["여", "female", "Female", "F"]

/-- Dictionary read `d.get(k, 0)` on the age-distribution map. -/
def assocGetD : List (String × Int) → String → Int
  | [], _ => 0
  | (k, v) :: rest, key => if k = key then v else assocGetD rest key

/-- Dictionary write `d[k] = v` (overwrite in place, append if new). -/
def assocPut : List (String × Int) → String → Int → List (String × Int)
  | [], key, v => [(key, v)]
  | (k, w) :: rest, key, v =>
    if k = key then (key, v) :: rest else (k, w) :: assocPut rest key v

/-- One iteration of the `for cluster, weight in cluster_weights` loop:
truncate the weighted population and add it to the counters selected by
the row's gender token. -/
def clusterStep (gender : String) (pop : Int) (d : DemographicData)
    (cw : WelfareCluster × ℚ) : DemographicData :=
  let weighted := ratTrunc (pyMulIntRat pop cw.2)
  if MALE_TOKENS.contains gender then
    { d with
      male_by_cluster := d.male_by_cluster.add cw.1 weighted,
      male_population := d.male_population + weighted }
  else if FEMALE_TOKENS.contains gender then
    { d with
      female_by_cluster := d.female_by_cluster.add cw.1 weighted,
      female_population := d.female_population + weighted }
  else
    let d := match cw.1 with
      | .children_youth => { d with children_youth := d.children_youth + weighted }
      | .productive => { d with productive := d.productive + weighted }
      | .young_old => { d with young_old := d.young_old + weighted }
      | .old_old => { d with old_old := d.old_old + weighted }
    { d with total_population := d.total_population + weighted }

/-- The body of the per-row loop of `process_kosis_dataframe` (after the
population value has been read): parse the age group (skipping the row if
unparseable), record the age distribution, and accumulate the weighted
population into the gender-appropriate counters. -/
def processRowInto (demo : DemographicData) (r : Row) (pop : Int) :
    DemographicData :=
  match parse_age_group r.age_group with
  | none => demo
  | some (min_age, max_age) =>
    let demo := { demo with
      age_distribution := assocPut demo.age_distribution r.age_group
        (assocGetD demo.age_distribution r.age_group + pop) }
    (classify_to_cluster min_age max_age).foldl
      (clusterStep r.gender pop) demo

/-- The per-group row loop: read each row's population (a non-numeric
cell raises, aborting the whole call), then accumulate it. -/
def processGroupRows (demo : DemographicData) :
    List Row → Except String DemographicData
  | [] => .ok demo
  | r :: rs =>
    match popValue r.population with
    | .error e => .error e
    | .ok pop => processGroupRows (processRowInto demo r pop) rs

/-- The backfill step ("If we only have gender-specific data, compute
totals"). -/
def computeTotalsIfNeeded (demo : DemographicData) : DemographicData :=
  if demo.total_population = 0 ∧
      (demo.male_population > 0 ∨ demo.female_population > 0) then
    { demo with
      total_population := demo.male_population + demo.female_population,
      children_youth := demo.male_by_cluster.children_youth +
        demo.female_by_cluster.children_youth,
      productive := demo.male_by_cluster.productive +
        demo.female_by_cluster.productive,
      young_old := demo.male_by_cluster.young_old +
        demo.female_by_cluster.young_old,
      old_old := demo.male_by_cluster.old_old +
        demo.female_by_cluster.old_old }
  else demo

/-- Group-key comparison used to model pandas' sorted `groupby` order. -/
def keyLE (a b : String × Int) : Bool :=
  charListLt a.1.toList b.1.toList ||
    (a.1 == b.1 && decide (a.2 ≤ b.2))

/-- Insertion into a key list sorted by `keyLE`. -/
def insertKey (x : String × Int) : List (String × Int) → List (String × Int)
  | [] => [x]
  | y :: ys => if keyLE x y then x :: y :: ys else y :: insertKey x ys

/-- Sort the group keys (pandas `groupby` yields keys in sorted order). -/
def sortKeys (l : List (String × Int)) : List (String × Int) :=
  l.foldr insertKey []

/-- Process one `(region_code, year)` group: filter the group's rows,
normalize the region code, build the snapshot, and backfill totals. -/
def processGroupFull (dfFiltered : List Row) (key : String × Int) :
    Except String (String × Int × DemographicData) :=
  let group := dfFiltered.filter (fun r =>
    r.region_code == key.1 && r.year == key.2)
  let regionCode := pyPad10Str key.1
  let regionName := match group with
    | [] => ""
    | r :: _ => r.region
  let init : DemographicData :=
    { region_code := regionCode, region_name := regionName, year := key.2 }
  match processGroupRows init group with
  | .error e => .error e
  | .ok demo => .ok (regionCode, key.2, computeTotalsIfNeeded demo)

/-- `results[region_code][year] = demo`: overwrite an existing
(code, year) entry, otherwise append. -/
def storeResult : List (String × Int × DemographicData) →
    String × Int × DemographicData → List (String × Int × DemographicData)
  | [], e => [e]
  | (c, y, d) :: rest, e =>
    if c = e.1 ∧ y = e.2.1 then e :: rest
    else (c, y, d) :: storeResult rest e

/-- The group loop of `process_kosis_dataframe`. -/
def processKeys (dfFiltered : List Row) :
    List (String × Int) → List (String × Int × DemographicData) →
    Except String (List (String × Int × DemographicData))
  | [], acc => .ok acc
  | k :: ks, acc =>
    match processGroupFull dfFiltered k with
    | .error e => .error e
    | .ok entry => processKeys dfFiltered ks (storeResult acc entry)

/-- The default `analysis_years` (2021-2025). -/
def defaultAnalysisYears : List Int := [2021, 2022, 2023, 2024, 2025]

/-- `DemographicProcessor.process_kosis_dataframe`: drop rows whose
region or age label is a total entry, restrict to the analysis years,
group by (region_code, year) in sorted key order, and build one snapshot
per group.  The result is the `region_code -> year -> DemographicData`
mapping, flattened to (code, year, snapshot) triples. -/
def process_kosis_dataframe (analysis_years : List Int) (df : List Row) :
    Except String (List (String × Int × DemographicData)) :=
  let dfFiltered := df.filter (fun r =>
    !(is_total_entry_proc r.region) && !(is_total_entry_proc r.age_group))
  let dfFiltered := dfFiltered.filter (fun r =>
    analysis_years.contains r.year)
  let keys := sortKeys ((dfFiltered.map (fun r =>
    (r.region_code, r.year))).dedup)
  processKeys dfFiltered keys []

/-- Look up the snapshot stored for a (code, year) pair. -/
def snapshotAt (res : List (String × Int × DemographicData))
    (code : String) (year : Int) : Option DemographicData :=
  match res with
  | [] => none
  | (c, y, d) :: rest =>
    if c = code ∧ y = year then some d else snapshotAt rest code year

/-- Look up a snapshot inside an `Except` result. -/
def snapshotAtE (res : Except String (List (String × Int × DemographicData)))
    (code : String) (year : Int) : Option DemographicData :=
  match res with
  | .error _ => none
  | .ok l => snapshotAt l code year

/-! ## Trend analyzer (`analyzer.py`) -/

/-- The scalar fields of `TrendMetrics` read or written by the verified
operations (the year-keyed series, enum tags and factor list do not enter
the urgency score). -/
structure TrendMetrics where
  region_code : String := ""
  region_name : String := ""
  start_year : Int := 0
  end_year : Int := 0
  total_change_absolute : Int := 0
  total_change_percent : ℚ := 0
  aging_velocity : ℚ := 0
  old_old_velocity : ℚ := 0
  old_old_acceleration : ℚ := 0
  youth_velocity : ℚ := 0
  dependency_change : ℚ := 0

/-- `URGENCY_WEIGHTS["aging_velocity"]`. -/
def urgencyWeightAgingVelocity : ℚ := 25 / 100

/-- `URGENCY_WEIGHTS["old_old_ratio"]`. -/
def urgencyWeightOldOld : ℚ := 25 / 100

/-- `URGENCY_WEIGHTS["absolute_elderly"]`. -/
def urgencyWeightAbsoluteElderly : ℚ := 15 / 100

/-- `URGENCY_WEIGHTS["dependency_ratio"]`. -/
def urgencyWeightDependency : ℚ := 15 / 100

/-- `URGENCY_WEIGHTS["trend_acceleration"]`. -/
def urgencyWeightAcceleration : ℚ := 10 / 100

/-- `URGENCY_WEIGHTS["youth_decline"]`. -/
def urgencyWeightYouthDecline : ℚ := 10 / 100

/-- `TrendAnalyzer._calculate_urgency`, score component: the weighted sum
of the six capped sub-scores, hard-capped at 100.  (The factor strings
assembled alongside do not influence the score.) -/
def calculate_urgency_score (metrics : TrendMetrics)
    (current_data : DemographicData) : ℚ :=
  let score : ℚ := 0
  let velocity_score := min 25 (max 0 (metrics.aging_velocity * 5))
  let score := score + velocity_score * urgencyWeightAgingVelocity * 4
  let old_old_score :=
    min 25 (max 0 ((DemographicData.old_old_ratio current_data - 30) * 2))
  let score := score + old_old_score * urgencyWeightOldOld * 4
  let elderly_thousands :=
    ((DemographicData.elderly_total current_data : Int) : ℚ) / 1000
  let elderly_score := min 25 (elderly_thousands / 10)
  let score := score + elderly_score * urgencyWeightAbsoluteElderly * 4
  let dep_score :=
    min 25 (max 0 ((DemographicData.dependency_ratio current_data - 40) / 2))
  let score := score + dep_score * urgencyWeightDependency * 4
  let score := score +
    (if metrics.old_old_acceleration > 0 then
      min 25 (metrics.old_old_acceleration * 5) *
        urgencyWeightAcceleration * 4
    else 0)
  let score := score +
    (if metrics.youth_velocity < 0 then
      min 25 (|metrics.youth_velocity| * 5) * urgencyWeightYouthDecline * 4
    else 0)
  min 100 score

/-- `TrendAnalyzer.calculate_cagr`: compound annual growth rate, with the
guard returning 0 for non-positive start value or year span. -/
noncomputable def calculate_cagr (start_value end_value : ℝ)
    (years : Int) : ℝ :=
  if start_value ≤ 0 ∨ years ≤ 0 then 0
  else ((end_value / start_value) ^ ((1 : ℝ) / (years : ℝ)) - 1) * 100

/-! ## Concrete inputs used by counterexamples and witnesses -/

/-- A national-total row ("전국") next to an ordinary district row, both
with parseable single-age labels and aggregate gender. -/
def dfNationalPlusDistrict : List Row :=
  [{ region := "전국", region_code := "00", year := 2021,
     age_group := "10세", gender := "계", population := PopCell.val 100 },
   { region := "서울 강남구", region_code := "1168000000", year := 2021,
     age_group := "10세", gender := "계", population := PopCell.val 50 }]

/-- A subtotal-labelled row ("합계") next to an ordinary district row. -/
def dfSubtotalPlusDistrict : List Row :=
  [{ region := "합계", region_code := "00", year := 2021,
     age_group := "10세", gender := "계", population := PopCell.val 100 },
   { region := "서울 강남구", region_code := "1168000000", year := 2021,
     age_group := "10세", gender := "계", population := PopCell.val 50 }]

/-- One district row whose population cell is a non-numeric string. -/
def dfBadPopulation : List Row :=
  [{ region := "서울 강남구", region_code := "1168000000", year := 2021,
     age_group := "10세", gender := "계", population := PopCell.invalid "abc" }]

/-- One district row with a missing (NaN) population cell. -/
def dfNaPopulation : List Row :=
  [{ region := "서울 강남구", region_code := "1168000000", year := 2021,
     age_group := "10세", gender := "계", population := PopCell.na }]

/-- A group with a single aggregate-gender row (no explicitly gendered
rows at all). -/
def dfAggregateGenderOnly : List Row :=
  [{ region := "서울 강남구", region_code := "1168000000", year := 2021,
     age_group := "10세", gender := "계", population := PopCell.val 100 }]

/-- A group consisting solely of explicitly gendered rows. -/
def dfGenderedOnly : List Row :=
  [{ region := "서울 강남구", region_code := "1168000000", year := 2021,
     age_group := "10세", gender := "남", population := PopCell.val 60 },
   { region := "서울 강남구", region_code := "1168000000", year := 2021,
     age_group := "10세", gender := "여", population := PopCell.val 40 },
   { region := "서울 강남구", region_code := "1168000000", year := 2021,
     age_group := "70세", gender := "여", population := PopCell.val 30 }]

/-- A population cell on which Python `int()` does not raise. -/
def popCellParses : PopCell → Bool
  | .val _ => true
  | .na => true
  | .invalid _ => false

/-- A population cell that parses to a non-negative count (`NaN` counts
as 0). -/
def popCellNonneg : PopCell → Bool
  | .val n => decide (0 ≤ n)
  | .na => true
  | .invalid _ => false

/-- A row carrying an explicitly gendered male/female label. -/
def rowExplicitlyGendered (r : Row) : Bool :=
  MALE_TOKENS.contains r.gender || FEMALE_TOKENS.contains r.gender

/-- The backfill relation claimed for a snapshot: its total population
and the four cluster totals agree with the male+female accumulators. -/
def snapshotGenderConsistent (d : DemographicData) : Prop :=
  d.total_population = d.male_population + d.female_population ∧
  d.children_youth = d.male_by_cluster.children_youth +
    d.female_by_cluster.children_youth ∧
  d.productive = d.male_by_cluster.productive +
    d.female_by_cluster.productive ∧
  d.young_old = d.male_by_cluster.young_old +
    d.female_by_cluster.young_old ∧
  d.old_old = d.male_by_cluster.old_old + d.female_by_cluster.old_old

/-- Invariant of the accumulating snapshot while only explicitly
gendered rows with non-negative populations have been processed: the
aggregate-gender counters are untouched, the per-gender cluster counters
are non-negative, and the per-gender populations are the sums of their
cluster counters. -/
def accInvariant (d : DemographicData) : Prop :=
  d.total_population = 0 ∧ d.children_youth = 0 ∧ d.productive = 0 ∧
  d.young_old = 0 ∧ d.old_old = 0 ∧
  0 ≤ d.male_by_cluster.children_youth ∧
  0 ≤ d.male_by_cluster.productive ∧
  0 ≤ d.male_by_cluster.young_old ∧
  0 ≤ d.male_by_cluster.old_old ∧
  0 ≤ d.female_by_cluster.children_youth ∧
  0 ≤ d.female_by_cluster.productive ∧
  0 ≤ d.female_by_cluster.young_old ∧
  0 ≤ d.female_by_cluster.old_old ∧
  d.male_population = d.male_by_cluster.children_youth +
    d.male_by_cluster.productive + d.male_by_cluster.young_old +
    d.male_by_cluster.old_old ∧
  d.female_population = d.female_by_cluster.children_youth +
    d.female_by_cluster.productive + d.female_by_cluster.young_old +
    d.female_by_cluster.old_old

/-- The result list of the gendered-rows witness run. -/
def resGenderedOnly : List (String × Int × DemographicData) :=
  match process_kosis_dataframe defaultAnalysisYears dfGenderedOnly with
  | .ok l => l
  | .error _ => []

/-- A concrete snapshot with non-negative population fields, used to
instantiate hypotheses of the urgency theorems. -/
def demoSample : DemographicData :=
  { region_code := "1168000000", region_name := "강남구", year := 2025,
    total_population := 100000, male_population := 49000,
    female_population := 51000, children_youth := 15000,
    productive := 65000, young_old := 12000, old_old := 8000 }

/-- A concrete metrics record used to instantiate the urgency theorems. -/
def metricsSample : TrendMetrics :=
  { region_code := "1168000000", start_year := 2021, end_year := 2025,
    aging_velocity := 6, old_old_velocity := 8, old_old_acceleration := 1,
    youth_velocity := -2 }

/-! ## Theorems -/

/-- The kernel-reducible integer-rational product agrees with ordinary
rational multiplication. -/
theorem pyMulIntRat_eq (n : Int) (b : ℚ) : pyMulIntRat n b = (n : ℚ) * b := by
  rw [pyMulIntRat, Rat.divInt_eq_div]
  push_cast
  rw [mul_div_assoc, Rat.num_div_den]

/-- The kernel-reducible integer quotient agrees with rational division. -/
theorem intDivRat_eq (a b : Int) : intDivRat a b = (a : ℚ) / (b : ℚ) :=
  Rat.divInt_eq_div a b

/-- Truncation toward zero of a non-negative rational is non-negative. -/
theorem ratTrunc_nonneg (q : ℚ) (h : 0 ≤ q) : 0 ≤ ratTrunc q := by
  apply Int.tdiv_nonneg
  · exact Rat.num_nonneg.mpr h
  · positivity

/-- Every proportion produced by `_classify_to_cluster` is non-negative. -/
theorem classify_to_cluster_weight_nonneg (a b : Int)
    (cw : WelfareCluster × ℚ) (hmem : cw ∈ classify_to_cluster a b) :
    0 ≤ cw.2 := by
  simp only [classify_to_cluster, List.mem_filterMap] at hmem
  obtain ⟨cluster, -, hf⟩ := hmem
  split_ifs at hf with hc
  · cases hf
    have hab : a ≤ b := by
      rcases cluster <;> simp_all [WelfareCluster.age_range]
    simp only [intDivRat_eq]
    apply div_nonneg
    · have : (0 : Int) ≤ min b cluster.age_range.2 -
          max a cluster.age_range.1 + 1 := by omega
      exact_mod_cast this
    · have : (0 : Int) ≤ b - a + 1 := by omega
      exact_mod_cast this

/-- In exact arithmetic the proportions returned by
`_classify_to_cluster` sum to exactly 1 on any range inside [0, 120]. -/
theorem classify_sum_eq_one (a b : Int) (h0 : 0 ≤ a) (h1 : a ≤ b)
    (h2 : b ≤ 120) :
    ((classify_to_cluster a b).map Prod.snd).sum = 1 := by
  have hT : (0 : Int) < b - a + 1 := by omega
  have ht : ((b - a + 1 : Int) : ℚ) ≠ 0 := by exact_mod_cast hT.ne'
  simp only [classify_to_cluster, clusterEnum, WelfareCluster.age_range,
    intDivRat, Rat.divInt_eq_div, List.filterMap_cons, List.filterMap_nil]
  split_ifs <;>
    simp_all only [List.map_cons, List.map_nil, List.sum_cons, List.sum_nil,
      add_zero] <;>
    first
      | (exfalso; omega)
      | ((try simp only [div_add_div_same]); rw [div_eq_one_iff_eq ht];
         norm_cast; omega)

/-- C2: for every integer pair (min_age, max_age) with
0 ≤ min_age ≤ max_age ≤ 120, the proportions returned by
`_classify_to_cluster` over the four welfare clusters sum to 1.0 within
1e-6 (indeed exactly, in exact arithmetic). -/
theorem classify_proportions_sum_to_one (a b : Int) (h0 : 0 ≤ a)
    (h1 : a ≤ b) (h2 : b ≤ 120) :
    |((classify_to_cluster a b).map Prod.snd).sum - 1| ≤ 1 / 1000000 := by
  rw [classify_sum_eq_one a b h0 h1 h2]
  norm_num

/-- C2 witness: the bound instantiated on the concrete range 3..7. -/
theorem classify_proportions_sum_to_one_witness :
    (0 ≤ (3 : Int)) ∧ ((3 : Int) ≤ 7) ∧ ((7 : Int) ≤ 120) ∧
    |((classify_to_cluster 3 7).map Prod.snd).sum - 1| ≤ 1 / 1000000 :=
  ⟨by decide, by decide, by decide,
    classify_proportions_sum_to_one 3 7 (by decide) (by decide) (by decide)⟩

/-- A clamped sub-score `min(25, max(0, x))` is non-negative. -/
theorem min25_clamp_nonneg (x : ℚ) : 0 ≤ min 25 (max 0 x) :=
  le_min (by norm_num) (le_max_left 0 x)

/-- C3: for every metrics record and every snapshot whose population
fields are all non-negative, the urgency score lies in [0, 100]. -/
theorem urgency_score_bounded (m : TrendMetrics) (d : DemographicData)
    (h1 : 0 ≤ d.total_population) (h2 : 0 ≤ d.male_population)
    (h3 : 0 ≤ d.female_population) (h4 : 0 ≤ d.children_youth)
    (h5 : 0 ≤ d.productive) (h6 : 0 ≤ d.young_old)
    (h7 : 0 ≤ d.old_old) :
    0 ≤ calculate_urgency_score m d ∧ calculate_urgency_score m d ≤ 100 := by
  have he : (0 : ℚ) ≤ ((DemographicData.elderly_total d : Int) : ℚ) := by
    have h : (0 : Int) ≤ DemographicData.elderly_total d := by
      unfold DemographicData.elderly_total; omega
    exact_mod_cast h
  constructor
  · simp only [calculate_urgency_score]
    refine le_min (by norm_num) ?_
    have hA : (0:ℚ) ≤ min 25 (max 0 (m.aging_velocity * 5)) *
        urgencyWeightAgingVelocity * 4 :=
      mul_nonneg (mul_nonneg (min25_clamp_nonneg _)
        (by norm_num [urgencyWeightAgingVelocity])) (by norm_num)
    have hB : (0:ℚ) ≤
        min 25 (max 0 ((DemographicData.old_old_ratio d - 30) * 2)) *
        urgencyWeightOldOld * 4 :=
      mul_nonneg (mul_nonneg (min25_clamp_nonneg _)
        (by norm_num [urgencyWeightOldOld])) (by norm_num)
    have hC : (0:ℚ) ≤
        min 25 (((DemographicData.elderly_total d : Int) : ℚ) / 1000 / 10) *
        urgencyWeightAbsoluteElderly * 4 := by
      refine mul_nonneg (mul_nonneg ?_
        (by norm_num [urgencyWeightAbsoluteElderly])) (by norm_num)
      exact le_min (by norm_num) (div_nonneg (div_nonneg he (by norm_num))
        (by norm_num))
    have hD : (0:ℚ) ≤
        min 25 (max 0 ((DemographicData.dependency_ratio d - 40) / 2)) *
        urgencyWeightDependency * 4 :=
      mul_nonneg (mul_nonneg (min25_clamp_nonneg _)
        (by norm_num [urgencyWeightDependency])) (by norm_num)
    have hE : (0:ℚ) ≤ (if m.old_old_acceleration > 0 then
        min 25 (m.old_old_acceleration * 5) * urgencyWeightAcceleration * 4
      else 0) := by
      split_ifs with hc
      · refine mul_nonneg (mul_nonneg ?_
          (by norm_num [urgencyWeightAcceleration])) (by norm_num)
        exact le_min (by norm_num) (by positivity)
      · exact le_rfl
    have hF : (0:ℚ) ≤ (if m.youth_velocity < 0 then
        min 25 (|m.youth_velocity| * 5) * urgencyWeightYouthDecline * 4
      else 0) := by
      split_ifs with hc
      · refine mul_nonneg (mul_nonneg ?_
          (by norm_num [urgencyWeightYouthDecline])) (by norm_num)
        exact le_min (by norm_num) (mul_nonneg (abs_nonneg _) (by norm_num))
      · exact le_rfl
    refine add_nonneg (add_nonneg (add_nonneg (add_nonneg (add_nonneg
      (add_nonneg le_rfl hA) hB) hC) hD) hE) hF
  · simp only [calculate_urgency_score]
    exact min_le_left _ _

/-- C3 witness: the bound instantiated on a concrete metrics record and
snapshot. -/
theorem urgency_score_bounded_witness :
    (0 ≤ demoSample.total_population ∧ 0 ≤ demoSample.male_population ∧
     0 ≤ demoSample.female_population ∧ 0 ≤ demoSample.children_youth ∧
     0 ≤ demoSample.productive ∧ 0 ≤ demoSample.young_old ∧
     0 ≤ demoSample.old_old) ∧
    (0 ≤ calculate_urgency_score metricsSample demoSample ∧
     calculate_urgency_score metricsSample demoSample ≤ 100) :=
  ⟨by decide,
    urgency_score_bounded metricsSample demoSample (by decide) (by decide)
      (by decide) (by decide) (by decide) (by decide) (by decide)⟩

/-- C4: `calculate_cagr` returns ((end/start)^(1/years) - 1) * 100 when
start_value > 0 and years > 0, returns 0 whenever start_value ≤ 0 or
years ≤ 0, and in particular maps (0,100,5) to 0, (100,100,5) to 0 and
(100,200,1) to 100. -/
theorem calculate_cagr_spec :
    (∀ (s e : ℝ) (y : Int), s ≤ 0 ∨ y ≤ 0 → calculate_cagr s e y = 0) ∧
    (∀ (s e : ℝ) (y : Int), 0 < s → 0 < y →
      calculate_cagr s e y = ((e / s) ^ ((1 : ℝ) / (y : ℝ)) - 1) * 100) ∧
    calculate_cagr 0 100 5 = 0 ∧
    calculate_cagr 100 100 5 = 0 ∧
    calculate_cagr 100 200 1 = 100 := by
  refine ⟨?_, ?_, ?_, ?_, ?_⟩
  · intro s e y hsy
    rw [calculate_cagr, if_pos hsy]
  · intro s e y hs hy
    rw [calculate_cagr, if_neg]
    push_neg
    exact ⟨hs, hy⟩
  · rw [calculate_cagr, if_pos]
    left; norm_num
  · rw [calculate_cagr, if_neg]
    · norm_num [Real.one_rpow]
    · push_neg
      norm_num
  · rw [calculate_cagr, if_neg]
    · norm_num [Real.rpow_one]
    · push_neg
      norm_num

/-- C5: with all other metric and snapshot fields fixed, the urgency
score is monotonically non-decreasing in the aging velocity. -/
theorem urgency_score_monotone_in_aging_velocity (m : TrendMetrics)
    (d : DemographicData) (v1 v2 : ℚ) (hv : v1 ≤ v2) :
    calculate_urgency_score { m with aging_velocity := v1 } d ≤
      calculate_urgency_score { m with aging_velocity := v2 } d := by
  simp only [calculate_urgency_score]
  refine min_le_min le_rfl ?_
  have hA : min 25 (max 0 (v1 * 5)) * urgencyWeightAgingVelocity * 4 ≤
      min 25 (max 0 (v2 * 5)) * urgencyWeightAgingVelocity * 4 := by
    refine mul_le_mul_of_nonneg_right (mul_le_mul_of_nonneg_right ?_
      (by norm_num [urgencyWeightAgingVelocity])) (by norm_num)
    exact min_le_min le_rfl (max_le_max le_rfl (by linarith))
  linarith

/-- C5 witness: the monotonicity instantiated at aging velocities 1 ≤ 2
on the concrete metrics record and snapshot. -/
theorem urgency_score_monotone_witness :
    ((1 : ℚ) ≤ 2) ∧
    calculate_urgency_score { metricsSample with aging_velocity := 1 }
        demoSample ≤
      calculate_urgency_score { metricsSample with aging_velocity := 2 }
        demoSample :=
  ⟨by decide,
    urgency_score_monotone_in_aging_velocity metricsSample demoSample 1 2
      (by decide)⟩

/-- A normalized code always has exactly 10 characters. -/
theorem normalizeTo10_length (cs : List Char) :
    (normalizeTo10 cs).length = 10 := by
  simp [normalizeTo10, ljustZeros]
  omega

/-- Normalizing a list that already has 10 characters is the identity. -/
theorem normalizeTo10_of_length (l : List Char) (h : l.length = 10) :
    normalizeTo10 l = l := by
  unfold normalizeTo10 ljustZeros
  rw [h]
  simp
  omega

/-- Code normalization is idempotent. -/
theorem normalizeTo10_idem (cs : List Char) :
    normalizeTo10 (normalizeTo10 cs) = normalizeTo10 cs :=
  normalizeTo10_of_length _ (normalizeTo10_length cs)

/-- C7 counterexample: for target level NATIONAL `normalize_code` does
not zero out the finer segments — it returns the code unchanged, so the
claimed description fails at the concrete code "1168010100". -/
theorem normalize_code_national_counterexample :
    normalize_code ("1168010100") AdminLevel.NATIONAL ≠
      zeroSegmentsFiner ("1168010100") AdminLevel.NATIONAL := by decide

/-- C7 amended: `normalize_code` zeroes all segments finer than the
target level for the SIDO, SIGUNGU and EMD targets, but for the NATIONAL
target it returns the (10-character-normalized) code unchanged instead of
zeroing every segment. -/
theorem normalize_code_zeroes_finer_segments (code : String) :
    normalize_code code AdminLevel.SIDO =
      zeroSegmentsFiner code AdminLevel.SIDO ∧
    normalize_code code AdminLevel.SIGUNGU =
      zeroSegmentsFiner code AdminLevel.SIGUNGU ∧
    normalize_code code AdminLevel.EMD =
      zeroSegmentsFiner code AdminLevel.EMD ∧
    normalize_code code AdminLevel.NATIONAL = pyPad10Str code := by
  refine ⟨?_, ?_, rfl, rfl⟩
  · show String.mk (ljustZeros ((normalizeTo10 code.toList).take 2) 10) =
      String.mk ((normalizeTo10 code.toList).take 2 ++ List.replicate 8 '0')
    congr 1
    unfold ljustZeros
    rw [List.length_take, normalizeTo10_length]
    norm_num
  · show String.mk (ljustZeros ((normalizeTo10 code.toList).take 5) 10) =
      String.mk ((normalizeTo10 code.toList).take 5 ++ List.replicate 5 '0')
    congr 1
    unfold ljustZeros
    rw [List.length_take, normalizeTo10_length]
    norm_num

/-- C9: `filter_active_regions` behaves exactly as the order-preserving
filter by the spec's keep-predicate: unknown codes are dropped; a known
code is dropped only when its region is inactive AND its expiry year
parses AND lies more than 5 years before the reference year; inactive
regions without a (parseable, non-empty) expiry date are kept. -/
theorem filter_active_regions_eq_filter (h : KIKcdHierarchy)
    (codes : List String) (reference_year : Int) :
    filter_active_regions h codes reference_year =
      codes.filter (fun c => keptBySpec h reference_year c) := by
  induction codes with
  | nil => rfl
  | cons c rest ih =>
    rw [filter_active_regions, List.filter_cons]
    cases hr : get_region h c with
    | none => simp [keptBySpec, hr, ih]
    | some region =>
      cases hact : region.is_active with
      | true => simp [keptBySpec, hr, hact, ih]
      | false =>
        cases hed : region.expired_date with
        | none => simp [keptBySpec, hr, hact, hed, ih]
        | some d =>
          by_cases hde : d.isEmpty
          · simp [keptBySpec, hr, hact, hed, hde, ih]
          · cases hp : pyIntOfString (strTake d 4) with
            | none => simp [keptBySpec, hr, hact, hed, hde, hp, ih]
            | some expYear =>
              by_cases hlt : expYear < reference_year - 5
              · simp [keptBySpec, hr, hact, hed, hde, hp, hlt, ih]
              · simp [keptBySpec, hr, hact, hed, hde, hp, hlt, ih]

/-- C10: `get_region` normalizes its argument (right-pad with '0' to 10
characters, truncate to 10) before lookup, so any code resolves exactly
as its normalized form does; in particular "11" and "1100000000" resolve
identically on the initialized hierarchy. -/
theorem get_region_normalizes :
    (∀ (h : KIKcdHierarchy) (c : String),
      get_region h c = get_region h (pyPad10Str c)) ∧
    get_region initialHierarchy ("11") =
      get_region initialHierarchy ("1100000000") := by
  constructor
  · intro h c
    simp only [get_region, pyPad10Str]
    have ht : (String.mk (normalizeTo10 c.toList)).toList =
        normalizeTo10 c.toList := rfl
    rw [ht, normalizeTo10_idem]
  · decide

/-- C1 counterexample: the processor's `_is_total_entry` does NOT match
"전국" (no exclude pattern is a substring of it), so the national-total
row survives filtering and the returned mapping contains a snapshot for
its (normalized) region code "0000000000" in addition to the
"서울 강남구" one — refuting the claim that the output contains only the
"서울 강남구" snapshot. -/
theorem process_keeps_national_total_row :
    (snapshotAtE (process_kosis_dataframe defaultAnalysisYears
        dfNationalPlusDistrict) ("0000000000") 2021).map
      (fun d => d.region_name) = some ("전국") := by decide

/-- C1 amended: the processor's `_is_total_entry` is a substring test
over 계/합계/소계/총계/전체/Total/total, which does not have the same
semantics as the hierarchy resolver's regex check — "전국" is matched by
the hierarchy check but not by the processor check.  Consequently a row
whose region label is a matched aggregate such as "합계" is dropped
before classification (only "서울 강남구" remains), while a "전국" row is
kept and classified alongside "서울 강남구". -/
theorem process_total_filtering_semantics :
    is_total_entry_proc ("전국") = false ∧
    is_total_entry_hier ("전국") = true ∧
    is_total_entry_proc ("합계") = true ∧
    (snapshotAtE (process_kosis_dataframe defaultAnalysisYears
        dfNationalPlusDistrict) ("0000000000") 2021).isSome = true ∧
    (snapshotAtE (process_kosis_dataframe defaultAnalysisYears
        dfNationalPlusDistrict) ("1168000000") 2021).isSome = true ∧
    snapshotAtE (process_kosis_dataframe defaultAnalysisYears
        dfSubtotalPlusDistrict) ("0000000000") 2021 = none ∧
    (snapshotAtE (process_kosis_dataframe defaultAnalysisYears
        dfSubtotalPlusDistrict) ("1168000000") 2021).isSome = true := by
  decide

/-- A parseable population cell yields an integer value. -/
theorem popValue_ok (p : PopCell) (h : popCellParses p = true) :
    ∃ n, popValue p = Except.ok n := by
  cases p with
  | val n => exact ⟨n, rfl⟩
  | na => exact ⟨0, rfl⟩
  | invalid s => simp [popCellParses] at h

/-- The per-group loop succeeds when every row's population parses. -/
theorem processGroupRows_ok (rows : List Row) :
    ∀ d, (∀ r ∈ rows, popCellParses r.population = true) →
    ∃ d', processGroupRows d rows = Except.ok d' := by
  induction rows with
  | nil => exact fun d _ => ⟨d, rfl⟩
  | cons r rs ih =>
    intro d h
    obtain ⟨n, hn⟩ := popValue_ok r.population (h r (List.mem_cons_self r rs))
    simp only [processGroupRows, hn]
    exact ih _ (fun x hx => h x (List.mem_cons_of_mem r hx))

/-- A whole group is processed successfully when every row of the
filtered frame has a parseable population. -/
theorem processGroupFull_ok (dfF : List Row) (k : String × Int)
    (h : ∀ r ∈ dfF, popCellParses r.population = true) :
    ∃ e, processGroupFull dfF k = Except.ok e := by
  simp only [processGroupFull]
  obtain ⟨d', hd'⟩ := processGroupRows_ok
    (dfF.filter (fun r => r.region_code == k.1 && r.year == k.2)) _
    (fun r hr => h r (List.mem_of_mem_filter hr))
  rw [hd']
  exact ⟨_, rfl⟩

/-- The group loop succeeds when every row of the filtered frame has a
parseable population. -/
theorem processKeys_ok (dfF : List Row)
    (h : ∀ r ∈ dfF, popCellParses r.population = true) :
    ∀ (ks : List (String × Int)) (acc : List (String × Int × DemographicData)),
    ∃ res, processKeys dfF ks acc = Except.ok res := by
  intro ks
  induction ks with
  | nil => exact fun acc => ⟨acc, rfl⟩
  | cons k ks ih =>
    intro acc
    obtain ⟨e, he⟩ := processGroupFull_ok dfF k h
    simp only [processKeys, he]
    exact ih _

/-- The whole pipeline succeeds when every input row's population cell
is numeric or missing. -/
theorem process_ok_of_parses (years : List Int) (df : List Row)
    (h : ∀ r ∈ df, popCellParses r.population = true) :
    ∃ res, process_kosis_dataframe years df = Except.ok res := by
  simp only [process_kosis_dataframe]
  apply processKeys_ok
  intro r hr
  exact h r (List.mem_of_mem_filter (List.mem_of_mem_filter hr))

/-- C6 counterexample: a single row whose population field is the
non-numeric string "abc" makes `process_kosis_dataframe` raise
(`int("abc")` raises ValueError), aborting the whole batch — the claim
that the batch never aborts on a malformed population is false. -/
theorem process_aborts_on_nonnumeric_population :
    exceptIsOk (process_kosis_dataframe defaultAnalysisYears
      dfBadPopulation) = false := by decide

/-- C6 amended: only a missing (NaN) population cell defaults to 0 and
keeps processing; as long as every row's population is numeric or
missing, the batch never aborts.  A non-NaN non-numeric population value
instead raises and aborts the batch. -/
theorem process_tolerates_missing_population (years : List Int)
    (df : List Row)
    (h : ∀ r ∈ df, popCellParses r.population = true) :
    exceptIsOk (process_kosis_dataframe years df) = true ∧
    popValue PopCell.na = Except.ok 0 := by
  refine ⟨?_, rfl⟩
  obtain ⟨res, hres⟩ := process_ok_of_parses years df h
  rw [hres]
  rfl

/-- C6 witness: the amended claim instantiated on a concrete frame with
a missing population cell. -/
theorem process_tolerates_missing_population_witness :
    (∀ r ∈ dfNaPopulation, popCellParses r.population = true) ∧
    (exceptIsOk (process_kosis_dataframe defaultAnalysisYears
        dfNaPopulation) = true ∧
     popValue PopCell.na = Except.ok 0) :=
  ⟨by decide,
    process_tolerates_missing_population defaultAnalysisYears
      dfNaPopulation (by decide)⟩

/-- The weighted population added per cluster is non-negative when the
row's population and the cluster weight are. -/
theorem weighted_pop_nonneg (pop : Int) (w : ℚ) (hp : 0 ≤ pop)
    (hw : 0 ≤ w) : 0 ≤ ratTrunc (pyMulIntRat pop w) := by
  apply ratTrunc_nonneg
  rw [pyMulIntRat_eq]
  have hp' : (0 : ℚ) ≤ (pop : ℚ) := by exact_mod_cast hp
  exact mul_nonneg hp' hw

/-- One cluster-accumulation step on an explicitly gendered row touches
only the per-gender counters and so preserves the accumulator
invariant. -/
theorem clusterStep_preserves_invariant (gender : String) (pop : Int)
    (d : DemographicData) (cw : WelfareCluster × ℚ)
    (hg : MALE_TOKENS.contains gender = true ∨
      FEMALE_TOKENS.contains gender = true)
    (hw : 0 ≤ ratTrunc (pyMulIntRat pop cw.2))
    (hd : accInvariant d) :
    accInvariant (clusterStep gender pop d cw) := by
  obtain ⟨c, w⟩ := cw
  have hw' : 0 ≤ ratTrunc (pyMulIntRat pop w) := hw
  clear hw
  unfold accInvariant at hd ⊢
  cases hmale : MALE_TOKENS.contains gender with
  | true =>
    cases c <;>
      simp only [clusterStep, hmale, if_true, ClusterCounts.add] <;>
      omega
  | false =>
    have hfem : FEMALE_TOKENS.contains gender = true := by
      rcases hg with hg | hg
      · rw [hmale] at hg; cases hg
      · exact hg
    cases c <;>
      simp only [clusterStep, hmale, hfem, Bool.false_eq_true, if_false,
        if_true, ClusterCounts.add] <;>
      omega

/-- Folding the cluster accumulation over any weight list preserves the
invariant on explicitly gendered rows with non-negative population. -/
theorem foldl_clusterStep_invariant (gender : String) (pop : Int)
    (hg : MALE_TOKENS.contains gender = true ∨
      FEMALE_TOKENS.contains gender = true) (hp : 0 ≤ pop) :
    ∀ (l : List (WelfareCluster × ℚ)), (∀ cw ∈ l, 0 ≤ cw.2) →
    ∀ d, accInvariant d →
    accInvariant (l.foldl (clusterStep gender pop) d) := by
  intro l
  induction l with
  | nil => exact fun _ d hd => hd
  | cons cw rest ih =>
    intro hl d hd
    simp only [List.foldl_cons]
    refine ih (fun x hx => hl x (List.mem_cons_of_mem cw hx)) _ ?_
    refine clusterStep_preserves_invariant gender pop d cw hg ?_ hd
    exact weighted_pop_nonneg pop cw.2 hp (hl cw (List.mem_cons_self cw rest))

/-- Processing one explicitly gendered row preserves the accumulator
invariant. -/
theorem processRowInto_invariant (d : DemographicData) (r : Row)
    (pop : Int) (hg : rowExplicitlyGendered r = true) (hp : 0 ≤ pop)
    (hd : accInvariant d) : accInvariant (processRowInto d r pop) := by
  have hg' : MALE_TOKENS.contains r.gender = true ∨
      FEMALE_TOKENS.contains r.gender = true := by
    simpa [rowExplicitlyGendered, Bool.or_eq_true] using hg
  unfold processRowInto
  cases hpar : parse_age_group r.age_group with
  | none => exact hd
  | some ab =>
    obtain ⟨a, b⟩ := ab
    refine foldl_clusterStep_invariant r.gender pop hg' hp _
      (fun cw hcw => classify_to_cluster_weight_nonneg a b cw hcw) _ ?_
    exact hd

/-- The group loop preserves the accumulator invariant when every row is
explicitly gendered with a non-negative population. -/
theorem processGroupRows_invariant (rows : List Row) :
    ∀ d, (∀ r ∈ rows, rowExplicitlyGendered r = true ∧
      popCellNonneg r.population = true) →
    accInvariant d →
    ∀ d', processGroupRows d rows = Except.ok d' → accInvariant d' := by
  induction rows with
  | nil =>
    intro d _ hd d' hd'
    cases hd'
    exact hd
  | cons r rs ih =>
    intro d h hd d' hd'
    obtain ⟨hg, hnn⟩ := h r (List.mem_cons_self r rs)
    have hrest := fun x hx => h x (List.mem_cons_of_mem r hx)
    cases hpop : r.population with
    | val n =>
      have hn : (0 : Int) ≤ n := by
        rw [hpop] at hnn
        simpa [popCellNonneg] using hnn
      rw [processGroupRows, hpop] at hd'
      exact ih _ hrest (processRowInto_invariant d r n hg hn hd) d' hd'
    | na =>
      rw [processGroupRows, hpop] at hd'
      exact ih _ hrest
        (processRowInto_invariant d r 0 hg le_rfl hd) d' hd'
    | invalid s =>
      rw [hpop] at hnn
      simp [popCellNonneg] at hnn

/-- The freshly initialized per-group snapshot satisfies the accumulator
invariant. -/
theorem accInvariant_init (rc rn : String) (y : Int) :
    accInvariant { region_code := rc, region_name := rn, year := y } := by
  unfold accInvariant
  norm_num

/-- The backfill step turns any invariant-satisfying accumulator into a
snapshot whose totals agree with the male+female accumulators. -/
theorem computeTotals_consistent (d : DemographicData)
    (hd : accInvariant d) :
    snapshotGenderConsistent (computeTotalsIfNeeded d) := by
  obtain ⟨i1, i2, i3, i4, i5, j1, j2, j3, j4, j5, j6, j7, j8, hm, hf⟩ := hd
  unfold computeTotalsIfNeeded snapshotGenderConsistent
  split_ifs with hc
  · exact ⟨rfl, rfl, rfl, rfl, rfl⟩
  · rw [not_and_or, not_or] at hc
    rcases hc with hc | ⟨hc1, hc2⟩
    · exact absurd i1 hc
    · refine ⟨?_, ?_, ?_, ?_, ?_⟩ <;> omega

/-- A successfully processed group on an all-gendered, non-negative
filtered frame yields a backfill-consistent snapshot. -/
theorem processGroupFull_consistent (dfF : List Row) (k : String × Int)
    (e : String × Int × DemographicData)
    (h : ∀ r ∈ dfF, rowExplicitlyGendered r = true ∧
      popCellNonneg r.population = true)
    (he : processGroupFull dfF k = Except.ok e) :
    snapshotGenderConsistent e.2.2 := by
  simp only [processGroupFull] at he
  split at he
  · cases he
  · rename_i demo hrun
    cases he
    refine computeTotals_consistent demo ?_
    refine processGroupRows_invariant _ _ ?_ (accInvariant_init _ _ _)
      demo hrun
    intro r hr
    exact h r (List.mem_of_mem_filter hr)

/-- Membership in the dictionary-store result: the element was already
present or is the stored entry. -/
theorem mem_storeResult (x e : String × Int × DemographicData) :
    ∀ acc, x ∈ storeResult acc e → x ∈ acc ∨ x = e := by
  intro acc
  induction acc with
  | nil =>
    intro hx
    simp only [storeResult] at hx
    rcases List.mem_singleton.mp hx with rfl
    exact Or.inr rfl
  | cons p rest ih =>
    obtain ⟨c, y, d⟩ := p
    intro hx
    simp only [storeResult] at hx
    split at hx
    · rcases List.mem_cons.mp hx with rfl | hx'
      · exact Or.inr rfl
      · exact Or.inl (List.mem_cons_of_mem _ hx')
    · rcases List.mem_cons.mp hx with rfl | hx'
      · exact Or.inl (List.mem_cons_self _ _)
      · rcases ih hx' with h' | h'
        · exact Or.inl (List.mem_cons_of_mem _ h')
        · exact Or.inr h'

/-- The group loop only ever stores backfill-consistent snapshots when
the filtered frame is all-gendered with non-negative populations. -/
theorem processKeys_consistent (dfF : List Row)
    (h : ∀ r ∈ dfF, rowExplicitlyGendered r = true ∧
      popCellNonneg r.population = true) :
    ∀ (ks : List (String × Int)) (acc : List (String × Int × DemographicData)),
    (∀ x ∈ acc, snapshotGenderConsistent x.2.2) →
    ∀ res, processKeys dfF ks acc = Except.ok res →
    ∀ x ∈ res, snapshotGenderConsistent x.2.2 := by
  intro ks
  induction ks with
  | nil =>
    intro acc hacc res hres
    cases hres
    exact hacc
  | cons k ks ih =>
    intro acc hacc res hres
    simp only [processKeys] at hres
    split at hres
    · cases hres
    · rename_i entry hentry
      refine ih _ ?_ res hres
      intro x hx
      rcases mem_storeResult x entry acc hx with hx' | rfl
      · exact hacc x hx'
      · exact processGroupFull_consistent dfF k x h hentry

/-- C8 amended: the code's backfill condition is
`total_population == 0 and (male > 0 or female > 0)`, which fires for
groups consisting solely of explicitly gendered rows — not, as claimed,
for groups with no gendered rows.  Amended: whenever every input row is
explicitly gendered with a non-negative (or missing) population, every
snapshot in the result has total_population = male + female and each
cluster total equal to the male plus female per-cluster counts. -/
theorem process_backfills_all_gendered_input (years : List Int)
    (df : List Row)
    (h : ∀ r ∈ df, rowExplicitlyGendered r = true ∧
      popCellNonneg r.population = true)
    (res : List (String × Int × DemographicData))
    (hres : process_kosis_dataframe years df = Except.ok res) :
    ∀ x ∈ res, snapshotGenderConsistent x.2.2 := by
  simp only [process_kosis_dataframe] at hres
  refine processKeys_consistent _ ?_ _ []
    (fun x hx => absurd hx (List.not_mem_nil x)) res hres
  intro r hr
  exact h r (List.mem_of_mem_filter (List.mem_of_mem_filter hr))

/-- C8 counterexample: a group consisting of a single aggregate-gender
("계") row has no explicitly gendered rows; its snapshot keeps
total_population = 100 while male + female = 0, so it is NOT backfilled
from the male+female accumulators — the claim is false. -/
theorem no_backfill_for_ungendered_group :
    (snapshotAtE (process_kosis_dataframe defaultAnalysisYears
        dfAggregateGenderOnly) ("1168000000") 2021).map
      (fun d => (d.total_population, d.male_population,
        d.female_population)) = some (100, 0, 0) := by decide

/-- C8 witness: the amended claim instantiated on a concrete
all-gendered frame. -/
theorem process_backfills_all_gendered_input_witness :
    (∀ r ∈ dfGenderedOnly, rowExplicitlyGendered r = true ∧
      popCellNonneg r.population = true) ∧
    (∀ x ∈ resGenderedOnly, snapshotGenderConsistent x.2.2) :=
  ⟨by decide,
    process_backfills_all_gendered_input defaultAnalysisYears
      dfGenderedOnly (by decide) resGenderedOnly (by rfl)⟩
